import Mathlib

/-!
Verification of the catalog ingestion and chat transport core of
`src/server/seed-database.ts` (a seeding script plus an Express server file
concatenated in the same source blob).

The shallow embedding below mirrors the TypeScript source:

* the zod `itemSchema` becomes the `Item` structure (numeric fields are
  modelled as `Nat`; every concrete value appearing in the spec's examples is
  a non-negative integer, for which JavaScript number-to-string rendering
  agrees with `Nat` rendering);
* `createItemSummary` resolves a promise with a string computed only from its
  argument, so it is embedded as a pure `Item → String`, together with an
  explicit state-passing wrapper used to state its purity;
* the database-touching functions (`setupDatabaseAndCollection`,
  `createVectorSearchIndex`, `seedDatabase`) become explicit state-passing
  functions over a `DbState` that records the collections, the search
  indexes, the stored documents and an event trace; external calls that can
  fail are driven by an `Env` fault-injection record, and a thrown exception
  is modelled by cutting to the handler of the nearest enclosing try/catch;
* the two Express handlers become functions of the outcome of the external
  `callAgent` call (that agent lives in `src/server/agent.ts`, which is not
  part of the sources; the handlers only need its success-or-failure outcome,
  which is passed in as a function argument).
-/

/-- Review object of the zod `itemSchema`: `review_date`, `rating`, `comment`. -/
structure UserReview where
  review_date : String
  rating : Nat
  comment : String
deriving DecidableEq, Repr

/-- Nested `manufacturer_address` object of the zod `itemSchema`. -/
structure ManufacturerAddress where
  street : String
  city : String
  state : String
  postal_code : String
  country : String
deriving DecidableEq, Repr

/-- Nested `prices` object of the zod `itemSchema`. -/
structure Prices where
  full_price : Nat
  sale_price : Nat
deriving DecidableEq, Repr

/-- The catalog record shape declared by the zod `itemSchema` (`type Item`). -/
structure Item where
  item_id : String
  item_name : String
  item_description : String
  brand : String
  manufacturer_address : ManufacturerAddress
  prices : Prices
  categories : List String
  user_reviews : List UserReview
  notes : String
deriving DecidableEq, Repr

/-- `createItemSummary` from the source: the promise resolves with a string
built from template literals; the separators (including the newline plus
indentation that the multi-line template literals contain) are reproduced
exactly. -/
def createItemSummary (item : Item) : String :=
  let manufacturesDetails := "Made in " ++ item.manufacturer_address.country
  let categories := String.intercalate "," item.categories
  let userReviews := String.intercalate " " (item.user_reviews.map (fun review =>
    "Rated " ++ toString review.rating ++ " on " ++ review.review_date ++ ": " ++ review.comment))
  let basicInfo := item.item_name ++ " " ++ item.item_description ++ " from the brand " ++ item.brand
  let price := "At full price it costs: $" ++ toString item.prices.full_price ++
    " USD,\n     Onsale it costs " ++ toString item.prices.sale_price ++ " USD"
  let notes := item.notes
  basicInfo ++ ", Manufacturer: " ++ manufacturesDetails ++ ",\n    Categories: " ++
    categories ++ ", Reviews: " ++ userReviews ++ ", Price: " ++ price ++ ", Notes: " ++ notes

/-- The `manufacturesDetails` component of the summary, as a standalone function. -/
def manufacturerDetailsOf (item : Item) : String :=
  "Made in " ++ item.manufacturer_address.country

/-- The comma-joined `categories` component of the summary. -/
def categoriesOf (item : Item) : String :=
  String.intercalate "," item.categories

/-- The space-joined rendered `user_reviews` component of the summary. -/
def userReviewsOf (item : Item) : String :=
  String.intercalate " " (item.user_reviews.map (fun review =>
    "Rated " ++ toString review.rating ++ " on " ++ review.review_date ++ ": " ++ review.comment))

/-- The `basicInfo` component of the summary: name, description and brand. -/
def basicInfoOf (item : Item) : String :=
  item.item_name ++ " " ++ item.item_description ++ " from the brand " ++ item.brand

/-- The `price` component of the summary. The full price is preceded by a
dollar sign in the template; the sale price is not. -/
def priceOf (item : Item) : String :=
  "At full price it costs: $" ++ toString item.prices.full_price ++
    " USD,\n     Onsale it costs " ++ toString item.prices.sale_price ++ " USD"

/-- Boolean substring test: `pat` occurs somewhere inside `s`. -/
def strOccursB (pat s : String) : Bool :=
  (List.range (s.data.length + 1)).any (fun i => (s.data.drop i).take pat.data.length == pat.data)

/-- Index of the first occurrence of `pat` inside `s`, if any. -/
def occIdx (pat s : String) : Option Nat :=
  (List.range (s.data.length + 1)).find? (fun i => (s.data.drop i).take pat.data.length == pat.data)

/-- True when both strings occur in `s` and the first occurrence of `a`
strictly precedes the first occurrence of `b`. -/
def occBefore (a b s : String) : Bool :=
  match occIdx a s, occIdx b s with
  | some i, some j => decide (i < j)
  | _, _ => false

/-- The example record of the spec scenario: Oak Chair, prices 120/90,
categories chairs/oak, one five-star review, made in USA, limited edition
notes.  Fields the scenario leaves open are filled with arbitrary ordinary
values. -/
def oakChair : Item :=
  { item_id := "SKU1"
    item_name := "Oak Chair"
    item_description := "Solid oak dining chair"
    brand := "Oakline"
    manufacturer_address :=
      { street := "1 Mill Road"
        city := "Portland"
        state := "OR"
        postal_code := "97201"
        country := "USA" }
    prices := { full_price := 120, sale_price := 90 }
    categories := ["chairs", "oak"]
    user_reviews := [{ review_date := "2024-01-01", rating := 5, comment := "sturdy" }]
    notes := "limited edition" }

/-- The state of the `inventory_database` database together with an event
trace of the destructive and writing operations issued against it. -/
structure SearchIndexDef where
  name : String
  path : String
  numdimensions : Nat
  similarity : String
deriving DecidableEq, Repr

/-- The vector search index definition object built in
`createVectorSearchIndex` (its single `fields` entry, flattened). -/
def vectorSearchIdx : SearchIndexDef :=
  { name := "vector_index"
    path := "embedding"
    numdimensions := 768
    similarity := "cosine" }

/-- A document written by the ingestion loop: the compiled summary is stored
under the text key `embedding_text` and the full record under `metadata`.
The numeric embedding vector comes from the external embedding service and
carries no information relevant to the claims, so it is not modelled. -/
structure StoredDoc where
  embedding_text : String
  metadata : Item
deriving DecidableEq, Repr

/-- Database-mutating operations, recorded in the order they are issued. -/
inductive Event where
  | createCollection (name : String)
  | dropIndexes
  | createSearchIndex (d : SearchIndexDef)
  | deleteAll
  | upsert (d : StoredDoc)
deriving DecidableEq, Repr

/-- Observable state of the `items` collection of `inventory_database`. -/
structure DbState where
  collections : List String
  indexes : List SearchIndexDef
  docs : List StoredDoc
  trace : List Event
deriving DecidableEq, Repr

/-- Possible results of `parser.parse` on the model output, mirroring the
three branches of `generateSyntheticData`: an array, a single truthy object,
or a falsy value (the last throws `Parsed data is empty` inside the try). -/
inductive ParseOut where
  | arr (items : List Item)
  | single (item : Item)
  | empty
deriving DecidableEq, Repr

/-- The only error that escapes `generateSyntheticData`: a failure of the
`llm.invoke` call, which the source performs outside its try block. -/
inductive GenErr where
  | llmFailure
deriving DecidableEq, Repr

/-- Fault-injection environment for the external calls made by the seeding
pipeline: whether `client.connect`/ping succeed, whether
`collection.createSearchIndex` succeeds, the text produced by `llm.invoke`
(`none` models a thrown error), the outcome of `parser.parse` on a given
text (`none` models a parse exception), and the per-iteration outcome of the
`MongoDBAtlasVectorSearch.fromDocuments` write.  Operations the claims never
need to fail (`listCollections`, `createCollection`, `dropIndexes`,
`deleteMany`) are modelled as always succeeding. -/
structure Env where
  connectOk : Bool
  createIndexOk : Bool
  llmResponse : Option String
  parsed : String → Option ParseOut
  upsertOk : Nat → Bool

/-- `setupDatabaseAndCollection`: create the `items` collection only when
`listCollections` finds no collection of that name.  Returns the new state
together with a flag telling whether `createCollection` was invoked. -/
def setupDatabaseAndCollection (s : DbState) : DbState × Bool :=
  if "items" ∈ s.collections then (s, false)
  else ({ s with
            collections := s.collections ++ ["items"]
            trace := s.trace ++ [Event.createCollection "items"] }, true)

/-- `createVectorSearchIndex`: inside a try/catch, drop all indexes on
`items`, then create the `vector_index` search index; a failure of the
creation call is caught and only logged, leaving the state after the drop. -/
def createVectorSearchIndex (env : Env) (s : DbState) : DbState :=
  let s1 : DbState := { s with indexes := [], trace := s.trace ++ [Event.dropIndexes] }
  if env.createIndexOk then
    { s1 with
        indexes := s1.indexes ++ [vectorSearchIdx]
        trace := s1.trace ++ [Event.createSearchIndex vectorSearchIdx] }
  else s1

/-- `generateSyntheticData`: `llm.invoke` runs before the try block, so its
failure escapes as an error; inside the try, a parse exception or a falsy
parse result is caught and yields `[]`, an array is returned as is, and a
single object is wrapped in a one-element list. -/
def generateSyntheticData (env : Env) : Except GenErr (List Item) :=
  match env.llmResponse with
  | none => Except.error GenErr.llmFailure
  | some content =>
      match env.parsed content with
      | none => Except.ok []
      | some (ParseOut.arr items) => Except.ok items
      | some (ParseOut.single item) => Except.ok [item]
      | some ParseOut.empty => Except.ok []

/-- The per-record write loop of `seedDatabase`: each iteration awaits one
`fromDocuments` call; a failure throws out of the loop to the enclosing
catch, leaving the state accumulated so far. `i` numbers the iterations so
the environment can make an individual write fail. -/
def upsertLoop (env : Env) (recs : List StoredDoc) (i : Nat) (s : DbState) : DbState :=
  match recs with
  | [] => s
  | r :: rest =>
      if env.upsertOk i then
        upsertLoop env rest (i + 1)
          { s with docs := s.docs ++ [r], trace := s.trace ++ [Event.upsert r] }
      else s

/-- `seedDatabase`: connect (a failure is caught by the outer catch with the
state untouched), set up the collection, recreate the vector search index,
delete every document, generate synthetic data (an error thrown there is
caught by the outer catch), compile summaries, and upsert record by record. -/
def seedDatabase (env : Env) (s : DbState) : DbState :=
  if env.connectOk then
    let s1 := (setupDatabaseAndCollection s).1
    let s2 := createVectorSearchIndex env s1
    let s3 : DbState := { s2 with docs := [], trace := s2.trace ++ [Event.deleteAll] }
    match generateSyntheticData env with
    | Except.error _ => s3
    | Except.ok items =>
        upsertLoop env
          (items.map (fun it => { embedding_text := createItemSummary it, metadata := it }))
          0 s3
  else s

/-- State-passing wrapper for `createItemSummary`, reflecting that the
promise it returns resolves with a value computed only from the record and
performs no external call: the database state threads through untouched. -/
def createItemSummaryRun (item : Item) (s : DbState) : String × DbState :=
  (createItemSummary item, s)

/-- What an Express handler sends back: a JSON body, a 500 error, or nothing
at all (the handler returns without calling any `res` method). -/
inductive ChatOutcome where
  | json (response : String)
  | serverError
  | noResponse
deriving DecidableEq, Repr

/-- The `POST /chat` handler: derives the thread id from the request time
(`Date.now().toString()`), calls the agent, and on failure sends a 500.  On
success the reply is bound to an unused variable and no response is sent. -/
def postChat (callAgent : String → String → Except Unit String)
    (message : String) (now : Nat) : ChatOutcome :=
  let threadId := toString now
  match callAgent message threadId with
  | Except.ok _ => ChatOutcome.noResponse
  | Except.error _ => ChatOutcome.serverError

/-- The `POST /chat/:threadId` handler: calls the agent with the explicit
thread id and sends `{response}` on success, a 500 on failure. -/
def postChatThreadId (callAgent : String → String → Except Unit String)
    (message : String) (threadId : String) : ChatOutcome :=
  match callAgent message threadId with
  | Except.ok r => ChatOutcome.json r
  | Except.error _ => ChatOutcome.serverError

set_option maxRecDepth 100000

/-- Concrete environments and states used to instantiate the theorems. -/
def emptyDb : DbState :=
  { collections := []
    indexes := []
    docs := []
    trace := [] }

/-- Environment in which every external call succeeds and the model output
parses to a one-element array. -/
def envAllOk : Env :=
  { connectOk := true
    createIndexOk := true
    llmResponse := some "model output"
    parsed := fun _ => some (ParseOut.arr [oakChair])
    upsertOk := fun _ => true }

/-- Environment in which the generative-model invocation itself throws. -/
def envLlmFail : Env :=
  { connectOk := true
    createIndexOk := true
    llmResponse := none
    parsed := fun _ => none
    upsertOk := fun _ => true }

/-- Environment in which the model answers but its output fails to parse. -/
def envParseFail : Env :=
  { connectOk := true
    createIndexOk := true
    llmResponse := some "not json"
    parsed := fun _ => none
    upsertOk := fun _ => true }

/-- Helper: a successful index creation replaces whatever indexes existed
with exactly the `vector_index` definition and appends drop-then-create to
the trace. -/
theorem createVectorSearchIndex_ok_eq (env : Env) (s : DbState)
    (h : env.createIndexOk = true) :
    createVectorSearchIndex env s =
      { s with
          indexes := [vectorSearchIdx]
          trace := s.trace ++ [Event.dropIndexes, Event.createSearchIndex vectorSearchIdx] } := by
  simp [createVectorSearchIndex, h]

/-- Helper: a failed index creation leaves the collection with no index at
all and only the drop in the trace. -/
theorem createVectorSearchIndex_fail_eq (env : Env) (s : DbState)
    (h : env.createIndexOk = false) :
    createVectorSearchIndex env s =
      { s with
          indexes := []
          trace := s.trace ++ [Event.dropIndexes] } := by
  simp [createVectorSearchIndex, h]

/-- C1: on `POST /chat` the success branch binds the agent reply to an unused
variable and never sends it, so the handler produces no response; the
explicit-thread route `POST /chat/:threadId` does return `{response}` on
success, and both routes return the generic 500 error on failure. -/
theorem postChat_success_sends_no_response :
    postChat (fun _ _ => Except.ok "Here is a chair") "recommend a chair" 1700000000000 =
      ChatOutcome.noResponse ∧
    postChat (fun _ _ => Except.error ()) "recommend a chair" 1700000000000 =
      ChatOutcome.serverError ∧
    postChatThreadId (fun _ _ => Except.ok "Here is a chair") "recommend a chair" "T1" =
      ChatOutcome.json "Here is a chair" ∧
    postChatThreadId (fun _ _ => Except.error ()) "recommend a chair" "T1" =
      ChatOutcome.serverError :=
  ⟨rfl, rfl, rfl, rfl⟩

/-- C2 counterexample: on the spec's example record the compiled summary does
not contain the substring with a dollar sign before the sale price, because
the template writes the sale price without one; so the claimed six-substring
conjunction is false. -/
theorem createItemSummary_example_claim_fails :
    ¬ (strOccursB "Made in USA" (createItemSummary oakChair) = true ∧
       strOccursB "chairs,oak" (createItemSummary oakChair) = true ∧
       strOccursB "Rated 5 on 2024-01-01: sturdy" (createItemSummary oakChair) = true ∧
       strOccursB "$120" (createItemSummary oakChair) = true ∧
       strOccursB "$90" (createItemSummary oakChair) = true ∧
       strOccursB "limited edition" (createItemSummary oakChair) = true) := by
  decide

/-- C2 amended: the summary of the example record contains the first four
expected substrings and the notes, and renders the sale price as a bare
number followed by USD rather than with a dollar sign. -/
theorem createItemSummary_example_contains :
    strOccursB "Made in USA" (createItemSummary oakChair) = true ∧
    strOccursB "chairs,oak" (createItemSummary oakChair) = true ∧
    strOccursB "Rated 5 on 2024-01-01: sturdy" (createItemSummary oakChair) = true ∧
    strOccursB "$120" (createItemSummary oakChair) = true ∧
    strOccursB "Onsale it costs 90 USD" (createItemSummary oakChair) = true ∧
    strOccursB "limited edition" (createItemSummary oakChair) = true := by
  decide

/-- C5 counterexample: the field order claimed by the spec (provenance first,
then categories, then reviews, then description-and-brand, then prices, then
notes) does not hold on the example record: the first occurrence of the
review text does not precede the first occurrence of the name/description/
brand sentence, which opens the summary. -/
theorem createItemSummary_order_claim_fails :
    ¬ (occBefore (manufacturerDetailsOf oakChair) (categoriesOf oakChair)
         (createItemSummary oakChair) = true ∧
       occBefore (categoriesOf oakChair) (userReviewsOf oakChair)
         (createItemSummary oakChair) = true ∧
       occBefore (userReviewsOf oakChair) (basicInfoOf oakChair)
         (createItemSummary oakChair) = true ∧
       occBefore (basicInfoOf oakChair) (priceOf oakChair)
         (createItemSummary oakChair) = true ∧
       occBefore (priceOf oakChair) oakChair.notes
         (createItemSummary oakChair) = true) := by
  decide

/-- C5 amended: for every record the summary is the concatenation, with the
fixed separators of the source template, of the name/description/brand
sentence first, then the provenance sentence, then the comma-joined
categories, then the rendered reviews, then the price pair, then the notes. -/
theorem createItemSummary_field_order (item : Item) :
    createItemSummary item =
      basicInfoOf item ++ ", Manufacturer: " ++ manufacturerDetailsOf item ++
        ",\n    Categories: " ++ categoriesOf item ++ ", Reviews: " ++ userReviewsOf item ++
        ", Price: " ++ priceOf item ++ ", Notes: " ++ item.notes :=
  rfl

/-- C9: the summary compiler is pure and deterministic: run on any record it
returns the same string regardless of the ambient database state, leaves
that state untouched, and a repeated call returns the identical string. -/
theorem createItemSummary_pure_deterministic (item : Item) (s t : DbState) :
    (createItemSummaryRun item s).1 = (createItemSummaryRun item t).1 ∧
    (createItemSummaryRun item s).2 = s ∧
    (createItemSummaryRun item ((createItemSummaryRun item s).2)).1 =
      (createItemSummaryRun item s).1 :=
  ⟨rfl, rfl, rfl⟩

/-- C10: creating the collection is guarded by a listCollections check, so a
second run of `setupDatabaseAndCollection` performs no creation and returns
the state of the first run unchanged. -/
theorem setupDatabaseAndCollection_idempotent (s : DbState) :
    setupDatabaseAndCollection (setupDatabaseAndCollection s).1 =
      ((setupDatabaseAndCollection s).1, false) := by
  unfold setupDatabaseAndCollection
  by_cases h : "items" ∈ s.collections
  · simp [h]
  · simp [h, List.mem_append]

/-- C3 counterexample: when the `llm.invoke` call fails, the failure escapes
`generateSyntheticData` as an error (the call sits outside the try block),
so the function does not return the empty list the claim promises. -/
theorem generateSyntheticData_raises_on_llm_failure :
    generateSyntheticData envLlmFail = Except.error GenErr.llmFailure ∧
    generateSyntheticData envLlmFail ≠ Except.ok [] := by
  refine ⟨rfl, ?_⟩
  intro h
  exact Except.noConfusion h

/-- C3 amended: when the model invocation itself succeeds, every parse
failure (a parse exception or a falsy parse result) is caught and degrades
to the empty list; only a failure of the invocation itself raises. -/
theorem generateSyntheticData_parse_failure_yields_empty (env : Env) (content : String)
    (hllm : env.llmResponse = some content)
    (hparse : env.parsed content = none ∨ env.parsed content = some ParseOut.empty) :
    generateSyntheticData env = Except.ok [] := by
  unfold generateSyntheticData
  rw [hllm]
  rcases hparse with h | h <;> simp [h]

/-- Witness for the amended C3 theorem at a concrete environment. -/
theorem generateSyntheticData_parse_failure_witness :
    generateSyntheticData envParseFail = Except.ok [] :=
  generateSyntheticData_parse_failure_yields_empty envParseFail "not json" rfl (Or.inl rfl)

/-- C6: every successful run of `createVectorSearchIndex` first drops the
existing indexes and then creates the single `vector_index` search index
with cosine similarity and dimension 768, so the resulting index set is that
one index regardless of the prior state, re-running leaves the index set
unchanged, and no duplicates arise. -/
theorem createVectorSearchIndex_drop_then_create (env : Env) (s : DbState)
    (h : env.createIndexOk = true) :
    (createVectorSearchIndex env s).indexes = [vectorSearchIdx] ∧
    (createVectorSearchIndex env s).trace =
      s.trace ++ [Event.dropIndexes, Event.createSearchIndex vectorSearchIdx] ∧
    (createVectorSearchIndex env (createVectorSearchIndex env s)).indexes =
      (createVectorSearchIndex env s).indexes ∧
    vectorSearchIdx.name = "vector_index" ∧
    vectorSearchIdx.similarity = "cosine" ∧
    vectorSearchIdx.numdimensions = 768 := by
  rw [createVectorSearchIndex_ok_eq env s h]
  rw [createVectorSearchIndex_ok_eq env _ h]
  exact ⟨rfl, rfl, rfl, rfl, rfl, rfl⟩

/-- Witness for C6 at a concrete environment and state. -/
theorem createVectorSearchIndex_drop_then_create_witness :
    (createVectorSearchIndex envAllOk emptyDb).indexes = [vectorSearchIdx] ∧
    (createVectorSearchIndex envAllOk emptyDb).trace =
      emptyDb.trace ++ [Event.dropIndexes, Event.createSearchIndex vectorSearchIdx] ∧
    (createVectorSearchIndex envAllOk (createVectorSearchIndex envAllOk emptyDb)).indexes =
      (createVectorSearchIndex envAllOk emptyDb).indexes ∧
    vectorSearchIdx.name = "vector_index" ∧
    vectorSearchIdx.similarity = "cosine" ∧
    vectorSearchIdx.numdimensions = 768 :=
  createVectorSearchIndex_drop_then_create envAllOk emptyDb rfl

/-- Environment in which everything works except the search-index creation. -/
def envIndexFail : Env :=
  { connectOk := true
    createIndexOk := false
    llmResponse := some "model output"
    parsed := fun _ => some (ParseOut.arr [oakChair])
    upsertOk := fun _ => true }

/-- A database state that already holds a collection, an old index and an old
document, as left behind by a previous ingestion run. -/
def dirtyDb : DbState :=
  { collections := ["items"]
    indexes := [{ name := "old_index", path := "embedding", numdimensions := 512, similarity := "euclidean" }]
    docs := [{ embedding_text := "old document", metadata := oakChair }]
    trace := [] }

/-- True exactly on document-write events. -/
def isUpsertEvent : Event → Bool
  | Event.upsert _ => true
  | _ => false

/-- Helper: the write loop never touches the index set. -/
theorem upsertLoop_indexes (env : Env) (recs : List StoredDoc) :
    ∀ i s, (upsertLoop env recs i s).indexes = s.indexes := by
  induction recs with
  | nil => intro i s; rfl
  | cons r rest ih =>
      intro i s
      unfold upsertLoop
      by_cases h : env.upsertOk i
      · simp only [h, if_true]
        rw [ih]
      · simp [h]

/-- Helper: the write loop only appends document-write events to the trace. -/
theorem upsertLoop_trace_extend (env : Env) (recs : List StoredDoc) :
    ∀ i s, ∃ ext, (upsertLoop env recs i s).trace = s.trace ++ ext ∧
      ∀ e ∈ ext, isUpsertEvent e = true := by
  induction recs with
  | nil =>
      intro i s
      exact ⟨[], by simp [upsertLoop], by simp⟩
  | cons r rest ih =>
      intro i s
      unfold upsertLoop
      by_cases h : env.upsertOk i
      · simp only [h, if_true]
        obtain ⟨ext, htr, hall⟩ :=
          ih (i + 1) { s with docs := s.docs ++ [r], trace := s.trace ++ [Event.upsert r] }
        refine ⟨Event.upsert r :: ext, ?_, ?_⟩
        · rw [htr]
          simp
        · intro e he
          rw [List.mem_cons] at he
          rcases he with rfl | he
          · rfl
          · exact hall e he
      · exact ⟨[], by simp [h], by simp⟩

/-- Helper: the collection-setup step only ever appends a collection-creation
event to the trace. -/
theorem setupDatabaseAndCollection_trace (s : DbState) :
    ∃ ext, ((setupDatabaseAndCollection s).1).trace = s.trace ++ ext ∧
      ∀ e ∈ ext, isUpsertEvent e = false := by
  unfold setupDatabaseAndCollection
  by_cases h : "items" ∈ s.collections
  · exact ⟨[], by simp [h], by simp⟩
  · refine ⟨[Event.createCollection "items"], by simp [h], ?_⟩
    intro e he
    rw [List.mem_singleton] at he
    subst he
    rfl

/-- Helper: the index-recreation step only appends drop/create events to the
trace, never a document write. -/
theorem createVectorSearchIndex_trace (env : Env) (s : DbState) :
    ∃ ext, (createVectorSearchIndex env s).trace = s.trace ++ ext ∧
      ∀ e ∈ ext, isUpsertEvent e = false := by
  by_cases h : env.createIndexOk
  · refine ⟨[Event.dropIndexes, Event.createSearchIndex vectorSearchIdx], ?_, ?_⟩
    · rw [createVectorSearchIndex_ok_eq env s h]
    · intro e he
      rcases List.mem_pair.mp he with rfl | rfl <;> rfl
  · refine ⟨[Event.dropIndexes], ?_, ?_⟩
    · rw [createVectorSearchIndex_fail_eq env s (by simpa using h)]
    · intro e he
      rw [List.mem_singleton] at he
      subst he
      rfl

/-- C4 counterexample: with a failing index creation but otherwise healthy
environment, `seedDatabase` run on a dirty state still deletes the existing
documents and writes the freshly generated record, contradicting the claimed
fatality of the index failure. -/
theorem seedDatabase_halts_on_index_failure_fails :
    envIndexFail.createIndexOk = false ∧
    Event.deleteAll ∈ (seedDatabase envIndexFail dirtyDb).trace ∧
    (seedDatabase envIndexFail dirtyDb).docs =
      [{ embedding_text := createItemSummary oakChair, metadata := oakChair }] := by
  refine ⟨rfl, ?_, rfl⟩
  decide

/-- C4 amended: a failure of the search-index creation is caught and logged
inside `createVectorSearchIndex`; `seedDatabase` then continues with the
destructive reset and the writes, and the collection is left with no search
index at all (the old indexes were dropped, the new one was never created,
so no half-created index remains). -/
theorem seedDatabase_continues_after_index_failure (env : Env) (s : DbState)
    (hc : env.connectOk = true) (hix : env.createIndexOk = false) :
    (seedDatabase env s).indexes = [] ∧
    Event.deleteAll ∈ (seedDatabase env s).trace := by
  have hseed : seedDatabase env s =
      match generateSyntheticData env with
      | Except.error _ =>
          { createVectorSearchIndex env (setupDatabaseAndCollection s).1 with
              docs := []
              trace := (createVectorSearchIndex env (setupDatabaseAndCollection s).1).trace ++
                [Event.deleteAll] }
      | Except.ok items =>
          upsertLoop env
            (items.map (fun it => { embedding_text := createItemSummary it, metadata := it }))
            0
            { createVectorSearchIndex env (setupDatabaseAndCollection s).1 with
                docs := []
                trace := (createVectorSearchIndex env (setupDatabaseAndCollection s).1).trace ++
                  [Event.deleteAll] } := by
    simp [seedDatabase, hc]
  have hix2 := createVectorSearchIndex_fail_eq env (setupDatabaseAndCollection s).1 hix
  rw [hseed]
  cases hgen : generateSyntheticData env with
  | error ge =>
      constructor
      · rw [hix2]
      · simp
  | ok items =>
      constructor
      · rw [upsertLoop_indexes]
        rw [hix2]
      · obtain ⟨ext, htr, _⟩ := upsertLoop_trace_extend env
          (items.map (fun it => { embedding_text := createItemSummary it, metadata := it }))
          0
          { createVectorSearchIndex env (setupDatabaseAndCollection s).1 with
              docs := []
              trace := (createVectorSearchIndex env (setupDatabaseAndCollection s).1).trace ++
                [Event.deleteAll] }
        rw [htr]
        simp

/-- Witness for the amended C4 theorem at a concrete environment and state. -/
theorem seedDatabase_continues_after_index_failure_witness :
    (seedDatabase envIndexFail dirtyDb).indexes = [] ∧
    Event.deleteAll ∈ (seedDatabase envIndexFail dirtyDb).trace :=
  seedDatabase_continues_after_index_failure envIndexFail dirtyDb rfl rfl

/-- C7: in every `seedDatabase` run started on a state with an empty trace,
the event trace splits into a first part free of document writes (the
collection setup, the index drop/recreation and the collection clear) and a
second part consisting only of document writes: no upsert is ever issued
before the destructive reset has completed. -/
theorem seedDatabase_reset_precedes_writes (env : Env) (s : DbState)
    (h0 : s.trace = []) :
    ∃ pre post, (seedDatabase env s).trace = pre ++ post ∧
      (∀ e ∈ pre, isUpsertEvent e = false) ∧
      (∀ e ∈ post, isUpsertEvent e = true) := by
  by_cases hc : env.connectOk
  case neg =>
    refine ⟨[], [], ?_, by simp, by simp⟩
    simp [seedDatabase, hc, h0]
  case pos =>
    have hseed : seedDatabase env s =
        match generateSyntheticData env with
        | Except.error _ =>
            { createVectorSearchIndex env (setupDatabaseAndCollection s).1 with
                docs := []
                trace := (createVectorSearchIndex env (setupDatabaseAndCollection s).1).trace ++
                  [Event.deleteAll] }
        | Except.ok items =>
            upsertLoop env
              (items.map (fun it => { embedding_text := createItemSummary it, metadata := it }))
              0
              { createVectorSearchIndex env (setupDatabaseAndCollection s).1 with
                  docs := []
                  trace := (createVectorSearchIndex env (setupDatabaseAndCollection s).1).trace ++
                    [Event.deleteAll] } := by
      simp [seedDatabase, hc]
    obtain ⟨e1, h1, p1⟩ := setupDatabaseAndCollection_trace s
    obtain ⟨e2, h2, p2⟩ := createVectorSearchIndex_trace env (setupDatabaseAndCollection s).1
    have htr3 : (createVectorSearchIndex env (setupDatabaseAndCollection s).1).trace ++
        [Event.deleteAll] = (e1 ++ e2) ++ [Event.deleteAll] := by
      rw [h2, h1, h0]
      simp
    have hpre : ∀ e ∈ (e1 ++ e2) ++ [Event.deleteAll], isUpsertEvent e = false := by
      intro e he
      rw [List.mem_append] at he
      rcases he with he | he
      · rw [List.mem_append] at he
        rcases he with he | he
        · exact p1 e he
        · exact p2 e he
      · rw [List.mem_singleton] at he
        subst he
        rfl
    rw [hseed]
    cases hgen : generateSyntheticData env with
    | error ge =>
        refine ⟨(e1 ++ e2) ++ [Event.deleteAll], [], ?_, hpre, by simp⟩
        rw [List.append_nil]
        exact htr3
    | ok items =>
        obtain ⟨e3, h3, p3⟩ := upsertLoop_trace_extend env
          (items.map (fun it => { embedding_text := createItemSummary it, metadata := it }))
          0
          { createVectorSearchIndex env (setupDatabaseAndCollection s).1 with
              docs := []
              trace := (createVectorSearchIndex env (setupDatabaseAndCollection s).1).trace ++
                [Event.deleteAll] }
        refine ⟨(e1 ++ e2) ++ [Event.deleteAll], e3, ?_, hpre, p3⟩
        rw [h3]
        rw [htr3]

/-- Witness for C7 at a concrete environment and state. -/
theorem seedDatabase_reset_precedes_writes_witness :
    ∃ pre post, (seedDatabase envAllOk emptyDb).trace = pre ++ post ∧
      (∀ e ∈ pre, isUpsertEvent e = false) ∧
      (∀ e ∈ post, isUpsertEvent e = true) :=
  seedDatabase_reset_precedes_writes envAllOk emptyDb rfl

/-- Helper for C8, generalized over the loop counter: if the writes of the
first `k` iterations succeed and iteration `k` fails, the loop stops with
exactly the first `k` documents appended. -/
theorem upsertLoop_take (env : Env) (recs : List StoredDoc) :
    ∀ i s k, k < recs.length → (∀ j, j < k → env.upsertOk (i + j) = true) →
      env.upsertOk (i + k) = false →
      (upsertLoop env recs i s).docs = s.docs ++ recs.take k := by
  induction recs with
  | nil =>
      intro i s k hk _ _
      simp at hk
  | cons r rest ih =>
      intro i s k hk hok hfail
      cases k with
      | zero =>
          have h : env.upsertOk i = false := by simpa using hfail
          unfold upsertLoop
          simp [h]
      | succ k' =>
          have h0 : env.upsertOk i = true := by
            have := hok 0 (Nat.succ_pos k')
            simpa using this
          unfold upsertLoop
          simp only [h0, if_true]
          have hrec := ih (i + 1)
            { s with docs := s.docs ++ [r], trace := s.trace ++ [Event.upsert r] } k'
            (by simpa using Nat.lt_of_succ_lt_succ hk)
            (fun j hj => by
              have hj2 := hok (j + 1) (Nat.succ_lt_succ hj)
              have harith : i + (j + 1) = (i + 1) + j := by omega
              rw [harith] at hj2
              exact hj2)
            (by
              have harith : i + (k' + 1) = (i + 1) + k' := by omega
              rw [harith] at hfail
              exact hfail)
          rw [hrec]
          simp

/-- C8: batching is per-record: when the writes of records `0..k-1` succeed
and the write of record `k` fails, the loop started at counter 0 leaves the
store holding exactly the previously present documents followed by the first
`k` records, so a failure on record `k` does not corrupt the earlier writes. -/
theorem upsertLoop_partial_failure_preserves_writes (env : Env) (recs : List StoredDoc)
    (s : DbState) (k : Nat) (hk : k < recs.length)
    (hok : ∀ j, j < k → env.upsertOk j = true) (hfail : env.upsertOk k = false) :
    (upsertLoop env recs 0 s).docs = s.docs ++ recs.take k := by
  have := upsertLoop_take env recs 0 s k hk
    (fun j hj => by simpa using hok j hj) (by simpa using hfail)
  exact this

/-- Environment whose record writes succeed only on the first iteration. -/
def envUpsertFailAt1 : Env :=
  { connectOk := true
    createIndexOk := true
    llmResponse := some "model output"
    parsed := fun _ => some (ParseOut.arr [oakChair])
    upsertOk := fun j => decide (j < 1) }

/-- Two concrete documents for the C8 witness. -/
def docA : StoredDoc := { embedding_text := "first summary", metadata := oakChair }

/-- Second concrete document for the C8 witness. -/
def docB : StoredDoc := { embedding_text := "second summary", metadata := oakChair }

/-- Witness for C8: with a write failure on the second record, the loop
keeps exactly the first record. -/
theorem upsertLoop_partial_failure_witness :
    (upsertLoop envUpsertFailAt1 [docA, docB] 0 emptyDb).docs =
      emptyDb.docs ++ [docA, docB].take 1 :=
  upsertLoop_partial_failure_preserves_writes envUpsertFailAt1 [docA, docB] emptyDb 1
    (by decide)
    (fun j hj => by simpa [envUpsertFailAt1] using hj)
    (by decide)
